import Mathlib

/-!
# AI Resume Tailor: the page controller of `script.js`

A shallow embedding of the client script: the page elements it reads and
writes, the display operations (`showLoading`, `hideLoading`, `showError`,
`showResult`), the gateway client `makeAPIRequest`, and the action
controllers (`scrapeJobDescription`, `tailorResume`, `clearAll`,
`copyToClipboard`, `downloadAsPDF`).

Modelling conventions.

* `style.display` of a surface is a `Bool`: `true` for `'block'`, `false`
  for `'none'`.
* JavaScript strings are Lean strings. `trim` and `includes` are defined
  below on the character lists.
* `innerHTML` assignments are recorded as the markup string assigned.
  `textOfMarkup` gives the text that the HTML fragment parser renders from
  such a string, on the part of HTML it covers: character data and the tags
  `strong` and `b`.
* The value of a `textarea` is recorded as its `value` property reads it,
  that is with line breaks normalised (`normalizeNewlines`).
* An `async` controller is split at its `await`: a `Start` half that runs up
  to the call of `makeAPIRequest`, and a `Settle` half that runs when the
  call has settled. The controller itself is the composition of the two; the
  interleaving semantics (`step`) lets other actions run in between.
* The platform (`fetch`, `new URL`, the clipboard) is an argument.
* The timed acknowledgements (`setTimeout`) and the label of the clicked
  button are outside the model.
-/

namespace ResumeTailor

/-! ## JavaScript strings -/

/-- White space and line terminators removed by `String.prototype.trim`. -/
def isJsWhiteSpace (c : Char) : Bool :=
  c.toNat = 0x09 || c.toNat = 0x0A || c.toNat = 0x0B || c.toNat = 0x0C ||
  c.toNat = 0x0D || c.toNat = 0x20 || c.toNat = 0xA0 || c.toNat = 0x1680 ||
  (0x2000 ≤ c.toNat && c.toNat ≤ 0x200A) ||
  c.toNat = 0x2028 || c.toNat = 0x2029 || c.toNat = 0x202F ||
  c.toNat = 0x205F || c.toNat = 0x3000 || c.toNat = 0xFEFF

/-- Embedding of `String.prototype.trim` on a character list. -/
def trimChars (cs : List Char) : List Char :=
  ((cs.dropWhile isJsWhiteSpace).reverse.dropWhile isJsWhiteSpace).reverse

/-- Embedding of `String.prototype.trim`. -/
def trim (s : String) : String :=
  String.mk (trimChars s.data)

/-- Tests whether `sub` starts the character list `cs`. -/
def startsWithChars : List Char → List Char → Bool
  | _, [] => true
  | [], _ :: _ => false
  | c :: cs, d :: ds => c == d && startsWithChars cs ds

/-- Tests whether `sub` occurs in the character list `cs`. -/
def includesChars : List Char → List Char → Bool
  | [], sub => startsWithChars [] sub
  | c :: cs, sub => startsWithChars (c :: cs) sub || includesChars cs sub

/-- Embedding of `String.prototype.includes`. -/
def includes (s sub : String) : Bool :=
  includesChars s.data sub.data

/-! ## The document -/

/-- Line breaks as the `value` property of a `textarea` reads them: every
CR LF pair and every remaining CR becomes LF. The flag tells whether the
character just read was a CR, whose LF is then already written. -/
def normalizeNewlineChars : Bool → List Char → List Char
  | _, [] => []
  | afterCR, c :: cs =>
    if c.toNat = 0x0D then Char.ofNat 0x0A :: normalizeNewlineChars true cs
    else if c.toNat = 0x0A && afterCR then normalizeNewlineChars false cs
    else c :: normalizeNewlineChars false cs

/-- What reading `textarea.value` gives after `textarea.value = s`. -/
def normalizeNewlines (s : String) : String :=
  String.mk (normalizeNewlineChars false s.data)

/-- Character data that the HTML tokenizer passes on unchanged: anything but
`<`, `&`, U+0000 and U+000D. -/
def isPlainChar (c : Char) : Bool :=
  !(c.toNat = 0x3C || c.toNat = 0x26 || c.toNat = 0x00 || c.toNat = 0x0D)

/-- The tags covered by `textOfMarkup`, as written between `<` and `>`. -/
def knownTags : List (List Char) :=
  ["strong".data, "/strong".data, "b".data, "/b".data]

/-- Text content of the nodes that the HTML fragment parser builds from a
markup string inside an element of flow content such as a `div`. The first
argument holds, inside a tag, the characters read since its `<`, last one
first. Covered are plain character data, which goes to the text as it is, and
the tags of `knownTags`, which add no text; on anything else the result is
`none`. -/
def textOfMarkupChars : Option (List Char) → List Char → Option (List Char)
  | none, [] => some []
  | some _, [] => none
  | none, c :: cs =>
    if c.toNat = 0x3C then textOfMarkupChars (some []) cs
    else if isPlainChar c then (textOfMarkupChars none cs).map (fun text => c :: text)
    else none
  | some tag, c :: cs =>
    if c.toNat = 0x3E then
      if knownTags.contains tag.reverse then textOfMarkupChars none cs else none
    else textOfMarkupChars (some (c :: tag)) cs

/-- Text that an element renders after `innerHTML = markup`, where covered. -/
def textOfMarkup (markup : String) : Option String :=
  (textOfMarkupChars none markup.data).map String.mk

/-! ## The page -/

/-- One `span` appended to the skills container (lines 40-43). -/
structure SkillTag where
  className : String
  textContent : String
  deriving DecidableEq, Repr

/-- The elements of the document that the script reads or writes
(lines 5-13), with the notices appended next to the job-URL input. -/
structure Page where
  /-- Value of `resumeTextarea.value`. -/
  resume : String
  /-- Value of `jobDescTextarea.value`. -/
  jobDesc : String
  /-- Value of `jobUrlInput.value`. -/
  jobUrl : String
  /-- Whether `loadingDiv.style.display` is `'block'`. -/
  loading : Bool
  /-- Whether `resultSection.style.display` is `'block'`. -/
  result : Bool
  /-- Whether `errorSection.style.display` is `'block'`. -/
  error : Bool
  /-- Markup assigned to `errorSection.innerHTML`. -/
  errorHtml : String
  /-- Value of `tailoredResumeDiv.textContent`. -/
  tailoredResume : String
  /-- Children of `skillsTagsDiv`, in order. -/
  skillsTags : List SkillTag
  /-- Markup assigned to `optimizationNotesDiv.innerHTML`. -/
  optimizationNotes : String
  /-- Success notices appended to `jobUrlInput.parentNode`. -/
  notices : List String
  deriving DecidableEq, Repr

/-- Success body of `/tailor-resume`. The skills sequence may be absent. -/
structure TailorResult where
  tailored_resume : String
  key_skills_extracted : Option (List String)
  optimization_notes : String
  deriving DecidableEq, Repr

/-- Success body of `/scrape-job`. -/
structure ScrapeResult where
  job_description : String
  deriving DecidableEq, Repr

/-! ## Display operations (lines 16-52) -/

/-- Embedding of `showLoading` (lines 16-20). -/
def showLoading (p : Page) : Page :=
  { p with loading := true, result := false, error := false }

/-- Embedding of `hideLoading` (lines 22-24). -/
def hideLoading (p : Page) : Page :=
  { p with loading := false }

/-- Embedding of `showError` (lines 26-30). -/
def showError (message : String) (p : Page) : Page :=
  hideLoading { p with errorHtml := "<strong>Error:</strong> " ++ message, error := true }

/-- The `forEach` body of `showResult` (lines 39-44): one tag per skill. -/
def skillTag (skill : String) : SkillTag :=
  { className := "skill-tag", textContent := skill }

/-- Embedding of `showResult` (lines 32-52). -/
def showResult (data : TailorResult) (p : Page) : Page :=
  let p1 : Page := { p with tailoredResume := data.tailored_resume }
  let p2 : Page := { p1 with skillsTags := [] }
  let p3 : Page :=
    match data.key_skills_extracted with
    | some skills =>
      if skills.length > 0 then
        skills.foldl
          (fun (q : Page) skill => { q with skillsTags := q.skillsTags ++ [skillTag skill] }) p2
      else p2
    | none => p2
  let p4 : Page := { p3 with
    optimizationNotes := "<strong>Optimization Notes:</strong> " ++ data.optimization_notes }
  hideLoading { p4 with result := true }

/-! ## Gateway client (lines 55-82) -/

/-- Embedding of the constant `API_BASE_URL` (line 2). -/
def API_BASE_URL : String := "http://localhost:8000"

/-- A thrown JavaScript exception, as the `catch` clauses read it. -/
structure JsError where
  name : String
  message : String
  deriving DecidableEq, Repr

/-- A field value of a request body. -/
inductive JsonAtom where
  | null
  | str (s : String)
  deriving DecidableEq, Repr

/-- A request body before `JSON.stringify`: its fields in order. -/
abbrev JsonObject := List (String × JsonAtom)

/-- The arguments of `fetch` built by `makeAPIRequest` (lines 57-68).
`body` is the object given to `JSON.stringify`, absent when no data. -/
structure Request where
  url : String
  method : String
  headers : List (String × String)
  body : Option JsonObject
  deriving DecidableEq, Repr

/-- The `detail` property read off a parsed failure body (line 72). -/
inductive Detail where
  /-- the property is missing (`undefined`) -/
  | absent
  /-- a string value -/
  | str (d : String)
  /-- any other JSON value, by its `ToBoolean` and its `ToString` -/
  | other (truthy : Bool) (text : String)
  deriving DecidableEq, Repr

/-- What `response.json()` settles to on a failure response (line 71). -/
inductive ErrorBody where
  /-- the body is not JSON: `json()` rejects -/
  | unparseable
  /-- the body is JSON `null`: reading `.detail` throws `thrown` -/
  | null (thrown : JsError)
  /-- any other JSON value, with what its `.detail` reads as -/
  | value (detail : Detail)
  deriving DecidableEq, Repr

/-- A response of `fetch`, split on `response.ok`. -/
inductive Response (α : Type) where
  /-- Case `response.ok` true; `json` is what `response.json()` settles to. -/
  | success (status : Nat) (json : Except JsError α)
  /-- Case `response.ok` false. -/
  | failure (status : Nat) (json : ErrorBody)

/-- How the promise of `fetch` settles (line 68). The two rejections differ
only in their cause, which the script cannot observe. -/
inductive FetchOutcome (α : Type) where
  /-- rejected: the remote host could not be reached -/
  | unreachable (e : JsError)
  /-- rejected for any other reason -/
  | rejected (e : JsError)
  /-- fulfilled with a response -/
  | responded (r : Response α)

/-- JavaScript `ToBoolean` of the `detail` value. -/
def Detail.toBoolean : Detail → Bool
  | .absent => false
  | .str d => d ≠ ""
  | .other truthy _ => truthy

/-- JavaScript `ToString` of the `detail` value. -/
def Detail.toString : Detail → String
  | .absent => "undefined"
  | .str d => d
  | .other _ text => text

/-- The message of `new Error(errorData.detail || ...)` (line 72). -/
def errorMessage (detail : Detail) (status : Nat) : String :=
  if detail.toBoolean then detail.toString else "HTTP " ++ toString status

/-- The `try` block of `makeAPIRequest` after `fetch` has settled
(lines 68-75). -/
def tryBlock {α : Type} : FetchOutcome α → Except JsError α
  | .unreachable e => .error e
  | .rejected e => .error e
  | .responded (.success _ json) => json
  | .responded (.failure status body) =>
    match body with
    | .unparseable => .error ⟨"Error", errorMessage (.str "Unknown error occurred") status⟩
    | .null thrown => .error thrown
    | .value detail => .error ⟨"Error", errorMessage detail status⟩

/-- The `catch` clause of `makeAPIRequest` (lines 76-81). -/
def catchBlock (error : JsError) : JsError :=
  if error.name = "TypeError" && includes error.message "fetch" then
    ⟨"Error", "Cannot connect to the backend server. Make sure the API is running."⟩
  else error

/-- The request that `makeAPIRequest` hands to `fetch` (lines 57-68). -/
def buildRequest (endpoint : String) (data : Option JsonObject) (method : String) : Request :=
  { url := API_BASE_URL ++ endpoint
    method := method
    headers := [("Content-Type", "application/json")]
    body := data }

/-- Embedding of `makeAPIRequest` (lines 55-82). -/
def makeAPIRequest {α : Type} (fetch : Request → FetchOutcome α)
    (endpoint : String) (data : Option JsonObject) (method : String) : Except JsError α :=
  match tryBlock (fetch (buildRequest endpoint data method)) with
  | .ok json => .ok json
  | .error e => .error (catchBlock e)

/-! ## Action controllers (lines 85-224) -/

/-- One call of `makeAPIRequest`: its three arguments. -/
structure ApiCall where
  endpoint : String
  data : Option JsonObject
  method : String
  deriving DecidableEq, Repr

/-- Embedding of `isValidURL` (lines 217-224). `urlParses string` tells
whether `new URL(string)` returns without throwing. -/
def isValidURL (urlParses : String → Bool) (string : String) : Bool :=
  if urlParses string then true else false

/-- The part of `scrapeJobDescription` up to the `await` (lines 86-101):
the page it leaves and the call it issues, if any. -/
def scrapeJobDescriptionStart (urlParses : String → Bool) (p : Page) : Page × Option ApiCall :=
  let jobUrl := trim p.jobUrl
  if jobUrl = "" then
    (showError "Please enter a job URL first." p, none)
  else if !isValidURL urlParses jobUrl then
    (showError "Please enter a valid URL." p, none)
  else
    (showLoading p, some ⟨"/scrape-job", some [("job_url", .str jobUrl)], "POST"⟩)

/-- The part of `scrapeJobDescription` after the `await` (lines 101-115). -/
def scrapeJobDescriptionSettle (settled : Except JsError ScrapeResult) (p : Page) : Page :=
  match settled with
  | .ok response =>
    let p1 : Page := { p with jobDesc := normalizeNewlines response.job_description }
    let p2 : Page := hideLoading p1
    { p2 with notices := p2.notices ++ ["Job description extracted successfully!"] }
  | .error error => showError ("Failed to scrape job description: " ++ error.message) p

/-- Embedding of `scrapeJobDescription` (lines 85-116), run to its end with
no other action in between: the final page and the calls made. -/
def scrapeJobDescription (urlParses : String → Bool)
    (fetch : Request → FetchOutcome ScrapeResult) (p : Page) : Page × List ApiCall :=
  match scrapeJobDescriptionStart urlParses p with
  | (p1, none) => (p1, [])
  | (p1, some call) =>
    (scrapeJobDescriptionSettle (makeAPIRequest fetch call.endpoint call.data call.method) p1,
      [call])

/-- The `requestData` object of `tailorResume` (lines 137-141), from the
three trimmed field texts. -/
def requestData (resume jobDesc jobUrl : String) : JsonObject :=
  [("resume", .str resume), ("job_desc", .str jobDesc),
   ("job_url", if jobUrl = "" then .null else .str jobUrl)]

/-- The two validation guards of `tailorResume` (lines 124-132) let the
trimmed field texts through. -/
def passesTailorValidation (p : Page) : Bool :=
  !(decide (trim p.resume = "")) && !(decide (trim p.jobDesc = "") && decide (trim p.jobUrl = ""))

/-- The part of `tailorResume` up to the `await` (lines 119-143). -/
def tailorResumeStart (p : Page) : Page × Option ApiCall :=
  let resume := trim p.resume
  let jobDesc := trim p.jobDesc
  let jobUrl := trim p.jobUrl
  if resume = "" then
    (showError "Please enter your resume." p, none)
  else if jobDesc = "" && jobUrl = "" then
    (showError "Please enter a job description or provide a job URL." p, none)
  else
    (showLoading p, some ⟨"/tailor-resume", some (requestData resume jobDesc jobUrl), "POST"⟩)

/-- The part of `tailorResume` after the `await` (lines 143-148). -/
def tailorResumeSettle (settled : Except JsError TailorResult) (p : Page) : Page :=
  match settled with
  | .ok response => showResult response p
  | .error error => showError ("Failed to tailor resume: " ++ error.message) p

/-- Embedding of `tailorResume` (lines 118-149), run to its end with no
other action in between: the final page and the calls made. -/
def tailorResume (fetch : Request → FetchOutcome TailorResult) (p : Page) :
    Page × List ApiCall :=
  match tailorResumeStart p with
  | (p1, none) => (p1, [])
  | (p1, some call) =>
    (tailorResumeSettle (makeAPIRequest fetch call.endpoint call.data call.method) p1, [call])

/-- Embedding of `clearAll` (lines 151-158). -/
def clearAll (p : Page) : Page :=
  hideLoading { p with resume := "", jobDesc := "", jobUrl := "", result := false, error := false }

/-- The synchronous part of `copyToClipboard` (lines 161-168): the page it
leaves and the text handed to `navigator.clipboard.writeText`, if any. -/
def copyToClipboardStart (p : Page) : Page × Option String :=
  let resumeText := p.tailoredResume
  if resumeText = "" then
    (showError "No resume to copy." p, none)
  else
    (p, some resumeText)

/-- The `then` and `catch` callbacks of `copyToClipboard` (lines 168-181);
`written` tells whether the promise chain ended without a rejection. The
chained `catch` also runs when the `then` callback throws, as it does on
reading `event.target` once the click event is over, so that `written` is
false then too. -/
def copyToClipboardSettle (written : Bool) (p : Page) : Page :=
  if written then p else showError "Failed to copy to clipboard." p

/-- Embedding of `copyToClipboard` (lines 160-182), run to its end. -/
def copyToClipboard (writeText : String → Bool) (p : Page) : Page :=
  match copyToClipboardStart p with
  | (p1, none) => p1
  | (p1, some text) => copyToClipboardSettle (writeText text) p1

/-- Embedding of `downloadAsPDF` (lines 184-214). The file offered for
download and the button label are not part of the page model. -/
def downloadAsPDF (p : Page) : Page :=
  let resumeText := p.tailoredResume
  if resumeText = "" then
    showError "No resume to download." p
  else
    p

/-- The callbacks of the start-up health check (lines 248-255). -/
def healthCheckSettle (settled : Except JsError Unit) (p : Page) : Page :=
  match settled with
  | .ok _ => p
  | .error _ =>
    showError "Backend server is not running. Please start the Python backend first." p

/-! ## Interleaving semantics -/

/-- An operation that has been started and has not settled yet, with the
result it will settle to. -/
inductive Pending where
  | tailor (settled : Except JsError TailorResult)
  | scrape (settled : Except JsError ScrapeResult)
  | copy (written : Bool)
  | health (settled : Except JsError Unit)

/-- The page together with the operations in flight and the log of every
call of `makeAPIRequest` made so far. -/
structure Sys where
  page : Page
  pending : List Pending
  calls : List ApiCall

/-- What can happen next: the user edits the fields or triggers an action,
a display operation runs, or a pending operation settles. -/
inductive Event where
  | input (resume jobDesc jobUrl : String)
  | showLoading
  | hideLoading
  | showError (message : String)
  | showResult (data : TailorResult)
  | clearAll
  | tailorResume (fetch : Request → FetchOutcome TailorResult)
  | scrapeJobDescription (urlParses : String → Bool) (fetch : Request → FetchOutcome ScrapeResult)
  | copyToClipboard (writeText : String → Bool)
  | downloadAsPDF
  | healthCheck (fetch : Request → FetchOutcome Unit)
  | settle (i : Nat)

/-- The continuation of a pending operation. -/
def Pending.run : Pending → Page → Page
  | .tailor settled => tailorResumeSettle settled
  | .scrape settled => scrapeJobDescriptionSettle settled
  | .copy written => copyToClipboardSettle written
  | .health settled => healthCheckSettle settled

/-- One step of the page. -/
def step (s : Sys) : Event → Sys
  | .input resume jobDesc jobUrl =>
    { s with page := { s.page with resume := resume, jobDesc := jobDesc, jobUrl := jobUrl } }
  | .showLoading => { s with page := showLoading s.page }
  | .hideLoading => { s with page := hideLoading s.page }
  | .showError message => { s with page := showError message s.page }
  | .showResult data => { s with page := showResult data s.page }
  | .clearAll => { s with page := clearAll s.page }
  | .tailorResume fetch =>
    match tailorResumeStart s.page with
    | (p1, none) => { s with page := p1 }
    | (p1, some call) =>
      { page := p1
        pending := s.pending ++ [.tailor (makeAPIRequest fetch call.endpoint call.data call.method)]
        calls := s.calls ++ [call] }
  | .scrapeJobDescription urlParses fetch =>
    match scrapeJobDescriptionStart urlParses s.page with
    | (p1, none) => { s with page := p1 }
    | (p1, some call) =>
      { page := p1
        pending := s.pending ++ [.scrape (makeAPIRequest fetch call.endpoint call.data call.method)]
        calls := s.calls ++ [call] }
  | .copyToClipboard writeText =>
    match copyToClipboardStart s.page with
    | (p1, none) => { s with page := p1 }
    | (p1, some text) => { s with page := p1, pending := s.pending ++ [.copy (writeText text)] }
  | .downloadAsPDF => { s with page := downloadAsPDF s.page }
  | .healthCheck fetch =>
    { s with
      pending := s.pending ++ [.health (makeAPIRequest fetch "/health" none "GET")]
      calls := s.calls ++ [⟨"/health", none, "GET"⟩] }
  | .settle i =>
    match s.pending.get? i with
    | none => s
    | some op => { s with page := op.run s.page, pending := s.pending.eraseIdx i }

/-- The page after a sequence of events. -/
def run (s : Sys) (events : List Event) : Sys :=
  events.foldl step s

/-- The freshly loaded page: empty fields, every surface hidden. -/
def initialPage : Page :=
  { resume := "", jobDesc := "", jobUrl := "", loading := false, result := false,
    error := false, errorHtml := "", tailoredResume := "", skillsTags := [],
    optimizationNotes := "", notices := [] }

/-- The freshly loaded page with nothing in flight. -/
def initialSys : Sys :=
  { page := initialPage, pending := [], calls := [] }

/-! ## State predicates -/

/-- The loading, result and error surfaces are all hidden. -/
def allHidden (p : Page) : Prop :=
  p.loading = false ∧ p.result = false ∧ p.error = false

/-- Number of visible surfaces among loading, result and error. -/
def visibleCount (p : Page) : Nat :=
  p.loading.toNat + p.result.toNat + p.error.toNat

/-- At most one of the loading, result and error surfaces is visible. -/
def atMostOneVisible (p : Page) : Prop :=
  visibleCount p ≤ 1

/-- If the loading surface is visible, the result and error surfaces are
hidden. -/
def loadingExclusive (p : Page) : Prop :=
  p.loading = true → p.result = false ∧ p.error = false

instance (p : Page) : Decidable (allHidden p) := by
  unfold allHidden; infer_instance

instance (p : Page) : Decidable (atMostOneVisible p) := by
  unfold atMostOneVisible; infer_instance

instance (p : Page) : Decidable (loadingExclusive p) := by
  unfold loadingExclusive; infer_instance

/-! ## Lemmas on strings -/

theorem startsWithChars_append (sub rest : List Char) :
    startsWithChars (sub ++ rest) sub = true := by
  induction sub with
  | nil => cases rest <;> rfl
  | cons c cs ih => simp [startsWithChars, ih]

theorem includesChars_append (pre sub rest : List Char) :
    includesChars (pre ++ (sub ++ rest)) sub = true := by
  induction pre with
  | nil =>
    have h := startsWithChars_append sub rest
    cases hs : sub ++ rest with
    | nil =>
      rw [hs] at h
      simpa [includesChars] using h
    | cons c cs =>
      rw [hs] at h
      simp [includesChars, h]
  | cons c cs ih =>
    have hc : (c :: cs) ++ (sub ++ rest) = c :: (cs ++ (sub ++ rest)) := rfl
    rw [hc, includesChars, ih]
    simp

theorem includes_append_right (pre sub : String) : includes (pre ++ sub) sub = true := by
  have h := includesChars_append pre.data sub.data []
  simpa [includes, String.data_append] using h

/-! ## Lemmas on the gateway client -/

theorem makeAPIRequest_of_error {α : Type} (fetch : Request → FetchOutcome α)
    (endpoint : String) (data : Option JsonObject) (method : String) (e : JsError)
    (h : tryBlock (fetch (buildRequest endpoint data method)) = .error e) :
    makeAPIRequest fetch endpoint data method = .error (catchBlock e) := by
  simp [makeAPIRequest, h]

theorem makeAPIRequest_of_ok {α : Type} (fetch : Request → FetchOutcome α)
    (endpoint : String) (data : Option JsonObject) (method : String) (a : α)
    (h : tryBlock (fetch (buildRequest endpoint data method)) = .ok a) :
    makeAPIRequest fetch endpoint data method = .ok a := by
  simp [makeAPIRequest, h]

theorem catchBlock_Error (message : String) :
    catchBlock ⟨"Error", message⟩ = ⟨"Error", message⟩ := by
  have h : ("Error" : String) ≠ "TypeError" := by decide
  simp [catchBlock, h]

/-! ## Error normalisation in `makeAPIRequest` -/

/-- C2, as stated, fails: a 500 response whose body is not JSON makes
`makeAPIRequest` fail with the message `Unknown error occurred`, in which
the numeral `500` does not occur. -/
theorem unparseable_500_message_lacks_status :
    (makeAPIRequest (fun _ => .responded (.failure 500 .unparseable)) "/scrape-job"
        (some [("job_url", .str "https://jobs.example/42")]) "POST" :
        Except JsError ScrapeResult)
      = .error ⟨"Error", "Unknown error occurred"⟩ ∧
    includes "Unknown error occurred" (toString 500) = false := by
  constructor
  · rfl
  · decide

/-- C2 (amended). On a failure response with status `status`: when the body
cannot be parsed as JSON, `makeAPIRequest` fails with the message
`Unknown error occurred`, the default detail substituted on parse failure;
when the body parses to a JSON value other than `null` whose `detail` is
missing or falsy, it fails with the message `HTTP ` followed by the decimal
numeral of `status`, which therefore contains that numeral. -/
theorem makeAPIRequest_failure_without_detail {α : Type} (fetch : Request → FetchOutcome α)
    (endpoint : String) (data : Option JsonObject) (method : String) (status : Nat) :
    (fetch (buildRequest endpoint data method) = .responded (.failure status .unparseable) →
      makeAPIRequest fetch endpoint data method = .error ⟨"Error", "Unknown error occurred"⟩) ∧
    (∀ detail : Detail, detail.toBoolean = false →
      fetch (buildRequest endpoint data method) = .responded (.failure status (.value detail)) →
      makeAPIRequest fetch endpoint data method = .error ⟨"Error", "HTTP " ++ toString status⟩ ∧
      includes ("HTTP " ++ toString status) (toString status) = true) := by
  constructor
  · intro h
    have ht : tryBlock (fetch (buildRequest endpoint data method))
        = .error ⟨"Error", "Unknown error occurred"⟩ := by
      rw [h]; rfl
    rw [makeAPIRequest_of_error fetch endpoint data method _ ht, catchBlock_Error]
  · intro detail hd h
    have ht : tryBlock (fetch (buildRequest endpoint data method))
        = .error ⟨"Error", "HTTP " ++ toString status⟩ := by
      rw [h]; simp [tryBlock, errorMessage, hd]
    rw [makeAPIRequest_of_error fetch endpoint data method _ ht, catchBlock_Error]
    exact ⟨rfl, includes_append_right _ _⟩

/-- Witness for C2: a 500 response with
an unparseable body, and a 500 response with body `{}`. -/
theorem makeAPIRequest_failure_without_detail_witness :
    (makeAPIRequest (fun _ => .responded (.failure 500 .unparseable)) "/tailor-resume"
        none "POST" : Except JsError TailorResult)
      = .error ⟨"Error", "Unknown error occurred"⟩ ∧
    (makeAPIRequest (fun _ => .responded (.failure 500 (.value .absent))) "/tailor-resume"
        none "POST" : Except JsError TailorResult)
      = .error ⟨"Error", "HTTP " ++ toString 500⟩ :=
  ⟨(makeAPIRequest_failure_without_detail
      (fun _ => .responded (.failure 500 .unparseable)) "/tailor-resume" none "POST" 500).1 rfl,
   ((makeAPIRequest_failure_without_detail
      (fun _ => .responded (.failure 500 (.value .absent))) "/tailor-resume" none "POST" 500).2
      .absent rfl rfl).1⟩

/-- C3, as stated, fails: a 404 response with body `{"detail": ""}` makes
`makeAPIRequest` fail with the message `HTTP 404`, not with the empty
detail. -/
theorem empty_detail_404_message :
    (makeAPIRequest (fun _ => .responded (.failure 404 (.value (.str "")))) "/scrape-job"
        (some [("job_url", .str "https://jobs.example/42")]) "POST" :
        Except JsError ScrapeResult)
      = .error ⟨"Error", "HTTP 404"⟩ ∧
    ("HTTP 404" : String) ≠ "" := by
  constructor
  · rfl
  · decide

/-- C3 (amended). On a failure response whose body parses to a JSON object
carrying a `detail` field with a non-empty string value `d`,
`makeAPIRequest` fails with an error whose message is exactly `d`. -/
theorem makeAPIRequest_failure_with_detail {α : Type} (fetch : Request → FetchOutcome α)
    (endpoint : String) (data : Option JsonObject) (method : String) (status : Nat)
    (d : String) (hd : d ≠ "")
    (h : fetch (buildRequest endpoint data method)
      = .responded (.failure status (.value (.str d)))) :
    makeAPIRequest fetch endpoint data method = .error ⟨"Error", d⟩ := by
  have ht : tryBlock (fetch (buildRequest endpoint data method)) = .error ⟨"Error", d⟩ := by
    rw [h]; simp [tryBlock, errorMessage, Detail.toBoolean, Detail.toString, hd]
  rw [makeAPIRequest_of_error fetch endpoint data method _ ht, catchBlock_Error]

/-- Witness for C3: a 404 response with
body `{"detail": "Job not found"}`. -/
theorem makeAPIRequest_failure_with_detail_witness :
    (makeAPIRequest (fun _ => .responded (.failure 404 (.value (.str "Job not found"))))
        "/scrape-job" (some [("job_url", .str "https://jobs.example/42")]) "POST" :
        Except JsError ScrapeResult)
      = .error ⟨"Error", "Job not found"⟩ :=
  makeAPIRequest_failure_with_detail _ "/scrape-job" _ "POST" 404 "Job not found"
    (by decide) rfl

/-- C4, as stated, fails in both halves. An unreachable host reported as a
`TypeError` with the message `Load failed` is propagated with that message,
not with the fixed one; and a `TypeError` that `fetch` raises without
contacting any host, because a GET request was given a body, has its message
`Window.fetch: HEAD or GET Request cannot have a body.` replaced by the
fixed one. -/
theorem connectivity_classified_by_message_text :
    (makeAPIRequest (fun _ => .unreachable ⟨"TypeError", "Load failed"⟩) "/health"
        none "GET" : Except JsError Unit)
      = .error ⟨"TypeError", "Load failed"⟩ ∧
    (makeAPIRequest
        (fun _ => .rejected ⟨"TypeError", "Window.fetch: HEAD or GET Request cannot have a body."⟩)
        "/health" (some [("ping", .str "1")]) "GET" : Except JsError Unit)
      = .error ⟨"Error", "Cannot connect to the backend server. Make sure the API is running."⟩ := by
  constructor
  · rfl
  · rfl

/-- C4 (amended). For every exception `e` raised inside the call (a
rejection of `fetch` for whatever cause, or any other exception of the `try`
block): if `e` is named `TypeError` and its message contains `fetch`,
`makeAPIRequest` fails with the fixed message
`Cannot connect to the backend server. Make sure the API is running.`;
otherwise it fails with `e` itself, message unchanged. -/
theorem makeAPIRequest_catch {α : Type} (fetch : Request → FetchOutcome α)
    (endpoint : String) (data : Option JsonObject) (method : String) (e : JsError)
    (h : fetch (buildRequest endpoint data method) = .unreachable e ∨
      fetch (buildRequest endpoint data method) = .rejected e ∨
      tryBlock (fetch (buildRequest endpoint data method)) = .error e) :
    makeAPIRequest fetch endpoint data method =
      .error (if e.name = "TypeError" ∧ includes e.message "fetch" = true then
        ⟨"Error", "Cannot connect to the backend server. Make sure the API is running."⟩
      else e) := by
  have ht : tryBlock (fetch (buildRequest endpoint data method)) = .error e := by
    rcases h with h | h | h
    · rw [h]; rfl
    · rw [h]; rfl
    · exact h
  rw [makeAPIRequest_of_error fetch endpoint data method e ht]
  by_cases hc : e.name = "TypeError" ∧ includes e.message "fetch" = true
  · simp [catchBlock, hc.1, hc.2]
  · rw [if_neg hc]
    simp only [catchBlock]
    rw [if_neg]
    simpa [Bool.and_eq_true] using hc

/-- Witness for C4: an unreachable host reported as a
`TypeError` with the message `Failed to fetch`. -/
theorem makeAPIRequest_catch_witness :
    (makeAPIRequest (fun _ => .unreachable ⟨"TypeError", "Failed to fetch"⟩) "/health"
        none "GET" : Except JsError Unit)
      = .error ⟨"Error", "Cannot connect to the backend server. Make sure the API is running."⟩ :=
  (makeAPIRequest_catch _ "/health" none "GET" ⟨"TypeError", "Failed to fetch"⟩
    (Or.inl rfl)).trans rfl

/-! ## Lemmas on the display operations -/

theorem foldl_skillTag (skills : List String) (q : Page) :
    skills.foldl
        (fun (q : Page) skill => { q with skillsTags := q.skillsTags ++ [skillTag skill] }) q
      = { q with skillsTags := q.skillsTags ++ skills.map skillTag } := by
  induction skills generalizing q with
  | nil => simp
  | cons skill rest ih => simp [ih]

theorem showResult_eq (data : TailorResult) (p : Page) :
    showResult data p =
      { p with
        tailoredResume := data.tailored_resume
        skillsTags := (data.key_skills_extracted.getD []).map skillTag
        optimizationNotes := "<strong>Optimization Notes:</strong> " ++ data.optimization_notes
        result := true
        loading := false } := by
  unfold showResult hideLoading
  cases hk : data.key_skills_extracted with
  | none => simp
  | some skills =>
    cases skills with
    | nil => simp
    | cons skill rest => simp [foldl_skillTag]

theorem tailorResumeStart_of_passes (p : Page) (h : passesTailorValidation p = true) :
    tailorResumeStart p =
      (showLoading p,
        some ⟨"/tailor-resume",
          some (requestData (trim p.resume) (trim p.jobDesc) (trim p.jobUrl)), "POST"⟩) := by
  simp only [passesTailorValidation, Bool.and_eq_true, Bool.not_eq_true', decide_eq_false_iff_not,
    Bool.and_eq_false_iff] at h
  obtain ⟨h1, h2⟩ := h
  have h3 : ¬ (trim p.jobDesc = "" ∧ trim p.jobUrl = "") := by
    rintro ⟨a, b⟩
    rcases h2 with h2 | h2
    · exact h2 a
    · exact h2 b
  simp [tailorResumeStart, h1, h3]

/-! ## `tailorResume` -/

/-- C5, as stated, fails: with a resume field holding one blank and a
filled job description, the resume is not empty and a companion field is
not empty, yet `tailorResume` shows the resume validation error and makes no
call. -/
theorem blank_resume_is_rejected :
    let p : Page := { initialPage with resume := " ", jobDesc := "Looking for backend dev" }
    let fetch : Request → FetchOutcome TailorResult :=
      fun _ => .responded (.success 200 (.ok ⟨"Tailored", some ["Go", "SQL"], "Notes"⟩))
    p.resume ≠ "" ∧ p.jobDesc ≠ "" ∧
    tailorResume fetch p = (showError "Please enter your resume." p, []) := by
  decide

/-- C5 (amended). With emptiness read after trimming surrounding white space:
if the trimmed resume is empty, `tailorResume` shows the resume validation
error and makes no call, whatever the other fields hold; if the trimmed
resume is non-empty and the trimmed job description and job URL are both
empty, it shows the second validation error and makes no call; if the
trimmed resume is non-empty and at least one of the trimmed job description
and job URL is non-empty, validation passes, the loading surface is shown,
and exactly one call of `makeAPIRequest` is made. -/
theorem tailorResume_validation (fetch : Request → FetchOutcome TailorResult) (p : Page) :
    (trim p.resume = "" →
      tailorResume fetch p = (showError "Please enter your resume." p, [])) ∧
    (trim p.resume ≠ "" → trim p.jobDesc = "" → trim p.jobUrl = "" →
      tailorResume fetch p =
        (showError "Please enter a job description or provide a job URL." p, [])) ∧
    (trim p.resume ≠ "" → (trim p.jobDesc ≠ "" ∨ trim p.jobUrl ≠ "") →
      passesTailorValidation p = true ∧
      (tailorResumeStart p).1 = showLoading p ∧
      (tailorResume fetch p).2.length = 1) := by
  refine ⟨?_, ?_, ?_⟩
  · intro h
    simp [tailorResume, tailorResumeStart, h]
  · intro h1 h2 h3
    simp [tailorResume, tailorResumeStart, h1, h2, h3]
  · intro h1 h2
    have hv : passesTailorValidation p = true := by
      simp only [passesTailorValidation, Bool.and_eq_true, Bool.not_eq_true',
        decide_eq_false_iff_not, Bool.and_eq_false_iff]
      exact ⟨h1, h2⟩
    refine ⟨hv, ?_, ?_⟩
    · rw [tailorResumeStart_of_passes p hv]
    · simp [tailorResume, tailorResumeStart_of_passes p hv]

/-- Witness for C5: the three cases at an empty
resume, at a resume alone, and at a resume with a job description. -/
theorem tailorResume_validation_witness :
    let fetch : Request → FetchOutcome TailorResult :=
      fun _ => .responded (.success 200 (.ok ⟨"Tailored", some ["Go", "SQL"], "Notes"⟩))
    let p1 : Page := { initialPage with jobDesc := "Looking for backend dev" }
    let p2 : Page := { initialPage with resume := "Experienced engineer..." }
    let p3 : Page :=
      { initialPage with resume := "Experienced engineer...", jobDesc := "Looking for backend dev" }
    tailorResume fetch p1 = (showError "Please enter your resume." p1, []) ∧
    tailorResume fetch p2 =
      (showError "Please enter a job description or provide a job URL." p2, []) ∧
    (tailorResume fetch p3).2.length = 1 :=
  ⟨(tailorResume_validation _ { initialPage with jobDesc := "Looking for backend dev" }).1
      (by decide),
   (tailorResume_validation _ { initialPage with resume := "Experienced engineer..." }).2.1
      (by decide) (by decide) (by decide),
   ((tailorResume_validation _
      { initialPage with
        resume := "Experienced engineer...", jobDesc := "Looking for backend dev" }).2.2
      (by decide) (Or.inl (by decide))).2.2⟩

/-- C6, as stated, fails: with a job-URL field holding one blank, the field
is not empty, yet the body sent has `job_url` null, not the entered text. -/
theorem blank_job_url_is_sent_as_null :
    let p : Page :=
      { initialPage with
        resume := "Experienced engineer...", jobDesc := "Looking for backend dev", jobUrl := " " }
    let fetch : Request → FetchOutcome TailorResult :=
      fun _ => .responded (.success 200 (.ok ⟨"Tailored", some ["Go", "SQL"], "Notes"⟩))
    passesTailorValidation p = true ∧ p.jobUrl ≠ "" ∧
    (tailorResume fetch p).2 =
      [⟨"/tailor-resume",
        some [("resume", .str "Experienced engineer..."),
          ("job_desc", .str "Looking for backend dev"), ("job_url", .null)],
        "POST"⟩] := by
  decide

/-- C6 (amended). For every input that passes tailor validation,
`tailorResume` calls `makeAPIRequest` exactly once, with endpoint
`/tailor-resume`, method `POST` and a body with exactly the three fields
`resume`, `job_desc` and `job_url`, where `resume`, `job_desc` are the
trimmed texts of the resume and job-description fields and `job_url` is null
when the trimmed text of the job-URL field is empty and that trimmed text
otherwise. -/
theorem tailorResume_call (fetch : Request → FetchOutcome TailorResult) (p : Page)
    (h : passesTailorValidation p = true) :
    (tailorResume fetch p).2 =
      [⟨"/tailor-resume",
        some [("resume", .str (trim p.resume)), ("job_desc", .str (trim p.jobDesc)),
          ("job_url", if trim p.jobUrl = "" then .null else .str (trim p.jobUrl))],
        "POST"⟩] := by
  simp [tailorResume, tailorResumeStart_of_passes p h, requestData]

/-- Witness for C6: the first end-to-end scenario. -/
theorem tailorResume_call_witness :
    (tailorResume
      (fun _ => .responded (.success 200 (.ok ⟨"Tailored", some ["Go", "SQL"], "Notes"⟩)))
      { initialPage with
        resume := "Experienced engineer...", jobDesc := "Looking for backend dev" }).2 =
      [⟨"/tailor-resume",
        some [("resume", .str "Experienced engineer..."),
          ("job_desc", .str "Looking for backend dev"), ("job_url", .null)],
        "POST"⟩] :=
  (tailorResume_call _
    { initialPage with resume := "Experienced engineer...", jobDesc := "Looking for backend dev" }
    (by decide)).trans (by decide)

/-- C7. For every input that passes tailor validation and every success
payload `data` of the `/tailor-resume` call, `tailorResume` ends with the
result surface visible and the loading surface hidden, the rendered
tailored-resume text equal to `data.tailored_resume`, and the texts of the
rendered skill tags equal, in order, to `data.key_skills_extracted`, with no
tag at all when that sequence is empty or absent. -/
theorem tailorResume_success (fetch : Request → FetchOutcome TailorResult) (p : Page)
    (status : Nat) (data : TailorResult)
    (hv : passesTailorValidation p = true)
    (hf : fetch (buildRequest "/tailor-resume"
        (some (requestData (trim p.resume) (trim p.jobDesc) (trim p.jobUrl))) "POST")
      = .responded (.success status (.ok data))) :
    (tailorResume fetch p).1.result = true ∧
    (tailorResume fetch p).1.loading = false ∧
    (tailorResume fetch p).1.tailoredResume = data.tailored_resume ∧
    (tailorResume fetch p).1.skillsTags.map SkillTag.textContent
      = data.key_skills_extracted.getD [] ∧
    (data.key_skills_extracted.getD [] = [] → (tailorResume fetch p).1.skillsTags = []) := by
  have hm : makeAPIRequest fetch "/tailor-resume"
      (some (requestData (trim p.resume) (trim p.jobDesc) (trim p.jobUrl))) "POST"
      = .ok data :=
    makeAPIRequest_of_ok fetch _ _ _ data (by rw [hf]; rfl)
  have hp : (tailorResume fetch p).1 = showResult data (showLoading p) := by
    simp [tailorResume, tailorResumeStart_of_passes p hv, hm, tailorResumeSettle]
  rw [hp, showResult_eq]
  refine ⟨rfl, rfl, rfl, ?_, ?_⟩
  · simp [List.map_map, Function.comp_def, skillTag]
  · intro he
    simp [he]

/-- Witness for C7: the first end-to-end scenario, with
the skills `Go`, `SQL`. -/
theorem tailorResume_success_witness :
    let fetch : Request → FetchOutcome TailorResult :=
      fun _ => .responded (.success 200 (.ok ⟨"Tailored", some ["Go", "SQL"], "Notes"⟩))
    let p : Page :=
      { initialPage with resume := "Experienced engineer...", jobDesc := "Looking for backend dev" }
    (tailorResume fetch p).1.result = true ∧
    (tailorResume fetch p).1.loading = false ∧
    (tailorResume fetch p).1.tailoredResume = "Tailored" ∧
    (tailorResume fetch p).1.skillsTags.map SkillTag.textContent = ["Go", "SQL"] :=
  have h := tailorResume_success
    (fun _ => .responded (.success 200 (.ok ⟨"Tailored", some ["Go", "SQL"], "Notes"⟩)))
    { initialPage with resume := "Experienced engineer...", jobDesc := "Looking for backend dev" }
    200 ⟨"Tailored", some ["Go", "SQL"], "Notes"⟩ (by decide) rfl
  ⟨h.1, h.2.1, h.2.2.1, h.2.2.2.1⟩

/-! ## `scrapeJobDescription` and `clearAll` -/

/-- On a failed `/scrape-job` request with a job URL that passes the two
guards, `scrapeJobDescription` ends on the page that `showError` makes of the
loading page, with the prefixed message of the failure. -/
theorem scrapeJobDescription_of_error (urlParses : String → Bool)
    (fetch : Request → FetchOutcome ScrapeResult) (p : Page) (e : JsError)
    (h1 : trim p.jobUrl ≠ "") (h2 : urlParses (trim p.jobUrl) = true)
    (hf : makeAPIRequest fetch "/scrape-job" (some [("job_url", .str (trim p.jobUrl))]) "POST"
      = .error e) :
    (scrapeJobDescription urlParses fetch p).1
      = showError ("Failed to scrape job description: " ++ e.message) (showLoading p) := by
  simp [scrapeJobDescription, scrapeJobDescriptionStart, isValidURL, h1, h2, hf,
    scrapeJobDescriptionSettle]

theorem textOfMarkupChars_plain (cs : List Char) (h : ∀ c ∈ cs, isPlainChar c = true) :
    textOfMarkupChars none cs = some cs := by
  induction cs with
  | nil => rfl
  | cons c cs ih =>
    have hc : isPlainChar c = true := h c (List.mem_cons_self c cs)
    have hlt : c.toNat ≠ 0x3C := by
      intro hx
      simp [isPlainChar, hx] at hc
    have ih2 := ih (fun d hd => h d (List.mem_cons_of_mem c hd))
    simp [textOfMarkupChars, hlt, hc, ih2]

/-- On a failed `/scrape-job` request whose message is plain character data
(no `<`, `&`, U+0000 or U+000D), the job-description field is unchanged, the
error surface is visible, the loading surface hidden, and the text rendered
is `Error: Failed to scrape job description: ` followed by the message. -/
theorem scrapeJobDescription_failure_plain (urlParses : String → Bool)
    (fetch : Request → FetchOutcome ScrapeResult) (p : Page) (e : JsError)
    (h1 : trim p.jobUrl ≠ "") (h2 : urlParses (trim p.jobUrl) = true)
    (hf : makeAPIRequest fetch "/scrape-job" (some [("job_url", .str (trim p.jobUrl))]) "POST"
      = .error e)
    (hm : ∀ c ∈ e.message.data, isPlainChar c = true) :
    (scrapeJobDescription urlParses fetch p).1.jobDesc = p.jobDesc ∧
    (scrapeJobDescription urlParses fetch p).1.error = true ∧
    (scrapeJobDescription urlParses fetch p).1.loading = false ∧
    textOfMarkup (scrapeJobDescription urlParses fetch p).1.errorHtml
      = some ("Error: Failed to scrape job description: " ++ e.message) ∧
    includes ("Error: Failed to scrape job description: " ++ e.message) e.message = true := by
  rw [scrapeJobDescription_of_error urlParses fetch p e h1 h2 hf]
  refine ⟨rfl, rfl, rfl, ?_, includes_append_right _ _⟩
  have ht := textOfMarkupChars_plain e.message.data hm
  simp [showError, hideLoading, textOfMarkup, String.data_append, textOfMarkupChars, isPlainChar,
    knownTags, ht]
  rfl

/-- C8 fails on the code. With the job URL `https://jobs.example/42` and a
404 response whose body is `{"detail": "<b>Job not found</b>"}`, the request
fails with the message `<b>Job not found</b>`; `scrapeJobDescription` leaves
the job-description field unchanged, the error surface visible and the
loading surface hidden, but the text rendered is
`Error: Failed to scrape job description: Job not found`, which does not
contain the message of the failure: `showError` writes the message into
`innerHTML` unescaped, so its tags are parsed as markup. -/
theorem scrape_failure_message_parsed_as_markup :
    let fetch : Request → FetchOutcome ScrapeResult :=
      fun _ => .responded (.failure 404 (.value (.str "<b>Job not found</b>")))
    let p : Page := { initialPage with jobDesc := "kept", jobUrl := "https://jobs.example/42" }
    let final := (scrapeJobDescription (fun _ => true) fetch p).1
    makeAPIRequest fetch "/scrape-job" (some [("job_url", .str "https://jobs.example/42")]) "POST"
      = .error ⟨"Error", "<b>Job not found</b>"⟩ ∧
    final.jobDesc = "kept" ∧ final.error = true ∧ final.loading = false ∧
    final.errorHtml
      = "<strong>Error:</strong> Failed to scrape job description: <b>Job not found</b>" ∧
    textOfMarkup final.errorHtml
      = some "Error: Failed to scrape job description: Job not found" ∧
    includes "Error: Failed to scrape job description: Job not found" "<b>Job not found</b>"
      = false := by
  refine ⟨rfl, ?_, ?_, ?_, ?_, ?_, ?_⟩ <;> decide

/-- C9. From every state, `clearAll` ends with the resume, job-description
and job-URL fields empty and the loading, result and error surfaces hidden,
and it makes no call: the log of calls and the operations in flight are
those of the state it started from. -/
theorem clearAll_resets (s : Sys) :
    (step s .clearAll).page.resume = "" ∧
    (step s .clearAll).page.jobDesc = "" ∧
    (step s .clearAll).page.jobUrl = "" ∧
    allHidden (step s .clearAll).page ∧
    (step s .clearAll).calls = s.calls ∧
    (step s .clearAll).pending = s.pending ∧
    (step s .clearAll).page = clearAll s.page :=
  ⟨rfl, rfl, rfl, ⟨rfl, rfl, rfl⟩, rfl, rfl, rfl⟩

/-! ## Visibility of the surfaces -/

theorem loadingExclusive_of_hidden (p : Page) (h : p.loading = false) : loadingExclusive p := by
  intro hl
  rw [h] at hl
  cases hl

theorem loadingExclusive_showLoading (p : Page) : loadingExclusive (showLoading p) :=
  fun _ => ⟨rfl, rfl⟩

theorem loadingExclusive_hideLoading (p : Page) : loadingExclusive (hideLoading p) :=
  loadingExclusive_of_hidden _ rfl

theorem loadingExclusive_showError (message : String) (p : Page) :
    loadingExclusive (showError message p) :=
  loadingExclusive_of_hidden _ rfl

theorem loadingExclusive_showResult (data : TailorResult) (p : Page) :
    loadingExclusive (showResult data p) :=
  loadingExclusive_of_hidden _ (by rw [showResult_eq])

theorem loadingExclusive_clearAll (p : Page) : loadingExclusive (clearAll p) :=
  loadingExclusive_of_hidden _ rfl

theorem loadingExclusive_tailorResumeStart (p : Page) :
    loadingExclusive (tailorResumeStart p).1 := by
  unfold tailorResumeStart
  simp only
  split
  · exact loadingExclusive_showError _ _
  · split
    · exact loadingExclusive_showError _ _
    · exact loadingExclusive_showLoading _

theorem loadingExclusive_scrapeJobDescriptionStart (urlParses : String → Bool) (p : Page) :
    loadingExclusive (scrapeJobDescriptionStart urlParses p).1 := by
  unfold scrapeJobDescriptionStart
  simp only
  split
  · exact loadingExclusive_showError _ _
  · split
    · exact loadingExclusive_showError _ _
    · exact loadingExclusive_showLoading _

theorem loadingExclusive_copyToClipboardStart (p : Page) (h : loadingExclusive p) :
    loadingExclusive (copyToClipboardStart p).1 := by
  unfold copyToClipboardStart
  simp only
  split
  · exact loadingExclusive_showError _ _
  · exact h

theorem loadingExclusive_downloadAsPDF (p : Page) (h : loadingExclusive p) :
    loadingExclusive (downloadAsPDF p) := by
  unfold downloadAsPDF
  simp only
  split
  · exact loadingExclusive_showError _ _
  · exact h

theorem loadingExclusive_pending (op : Pending) (p : Page) (h : loadingExclusive p) :
    loadingExclusive (op.run p) := by
  cases op with
  | tailor settled =>
    cases settled with
    | ok response => exact loadingExclusive_showResult _ _
    | error e => exact loadingExclusive_showError _ _
  | scrape settled =>
    cases settled with
    | ok response => exact loadingExclusive_of_hidden _ rfl
    | error e => exact loadingExclusive_showError _ _
  | copy written =>
    cases written with
    | true => exact h
    | false => exact loadingExclusive_showError _ _
  | health settled =>
    cases settled with
    | ok u => exact h
    | error e => exact loadingExclusive_showError _ _

theorem loadingExclusive_step (s : Sys) (event : Event) (h : loadingExclusive s.page) :
    loadingExclusive (step s event).page := by
  cases event with
  | input resume jobDesc jobUrl => exact h
  | showLoading => exact loadingExclusive_showLoading _
  | hideLoading => exact loadingExclusive_hideLoading _
  | showError message => exact loadingExclusive_showError _ _
  | showResult data => exact loadingExclusive_showResult _ _
  | clearAll => exact loadingExclusive_clearAll _
  | tailorResume fetch =>
    have hs := loadingExclusive_tailorResumeStart s.page
    simp only [step]
    split <;> rename_i heq <;> rw [heq] at hs <;> exact hs
  | scrapeJobDescription urlParses fetch =>
    have hs := loadingExclusive_scrapeJobDescriptionStart urlParses s.page
    simp only [step]
    split <;> rename_i heq <;> rw [heq] at hs <;> exact hs
  | copyToClipboard writeText =>
    have hs := loadingExclusive_copyToClipboardStart s.page h
    simp only [step]
    split <;> rename_i heq <;> rw [heq] at hs <;> exact hs
  | downloadAsPDF => exact loadingExclusive_downloadAsPDF _ h
  | healthCheck fetch => exact h
  | settle i =>
    simp only [step]
    split
    · exact h
    · exact loadingExclusive_pending _ _ h

theorem loadingExclusive_run (events : List Event) (s : Sys) (h : loadingExclusive s.page) :
    loadingExclusive (run s events).page := by
  induction events generalizing s with
  | nil => exact h
  | cons event rest ih => exact ih (step s event) (loadingExclusive_step s event h)

theorem loadingExclusive_of_allHidden (p : Page) (h : allHidden p) : loadingExclusive p :=
  loadingExclusive_of_hidden p h.1

/-- C1, as stated, fails: from the freshly loaded page, a tailoring that
succeeds followed by a copy that the clipboard refuses leaves the result
surface and the error surface both visible. -/
theorem result_and_error_visible_together :
    let final := (run initialSys
      [.input "Experienced engineer..." "Looking for backend dev" "",
       .tailorResume
         (fun _ => .responded (.success 200 (.ok ⟨"Tailored", some ["Go", "SQL"], "Notes"⟩))),
       .settle 0,
       .copyToClipboard (fun _ => false),
       .settle 0]).page
    allHidden initialSys.page ∧ final.result = true ∧ final.error = true ∧
    ¬ atMostOneVisible final := by
  decide

/-- C1 (amended). In every state reachable from a state with the loading,
result and error surfaces all hidden, by any sequence of display operations,
field edits, controller actions and settlements of pending operations, under
any request or clipboard outcome, the loading surface is never visible
together with the result surface or the error surface. `showError` leaves
the error surface visible and the loading surface hidden, `showResult`
leaves the result surface visible and the loading surface hidden, and each
leaves the other of the two as it was. -/
theorem reachable_loading_alone (s0 : Sys) (h0 : allHidden s0.page) (events : List Event) :
    ((run s0 events).page.loading = true →
      (run s0 events).page.result = false ∧ (run s0 events).page.error = false) ∧
    (∀ (message : String) (p : Page),
      (showError message p).error = true ∧ (showError message p).loading = false ∧
      (showError message p).result = p.result) ∧
    (∀ (data : TailorResult) (p : Page),
      (showResult data p).result = true ∧ (showResult data p).loading = false ∧
      (showResult data p).error = p.error) := by
  refine ⟨?_, ?_, ?_⟩
  · exact loadingExclusive_run events s0 (loadingExclusive_of_allHidden _ h0)
  · intro message p
    exact ⟨rfl, rfl, rfl⟩
  · intro data p
    rw [showResult_eq]
    exact ⟨rfl, rfl, rfl⟩

/-- Witness for C1: a tailoring in flight on the
freshly loaded page shows the loading surface alone. -/
theorem reachable_loading_alone_witness :
    let final := (run initialSys
      [.input "Experienced engineer..." "Looking for backend dev" "",
       .tailorResume
         (fun _ => .responded (.success 200 (.ok ⟨"Tailored", some ["Go", "SQL"], "Notes"⟩)))]).page
    final.loading = true ∧ final.result = false ∧ final.error = false :=
  ⟨by decide,
   (reachable_loading_alone initialSys (by decide)
      [.input "Experienced engineer..." "Looking for backend dev" "",
       .tailorResume
         (fun _ => .responded (.success 200 (.ok ⟨"Tailored", some ["Go", "SQL"], "Notes"⟩)))]).1
      (by decide)⟩

/-- C10. The predicate that a visible loading surface excludes the result
and error surfaces holds after `showLoading` from any state, is preserved by
each of `showLoading`, `hideLoading`, `showError`, `showResult` and
`clearAll`, and holds in every state reachable from a state with all
surfaces hidden, in whatever order the pending operations settle. -/
theorem loadingExclusive_invariant :
    (∀ p : Page, loadingExclusive (showLoading p)) ∧
    (∀ p : Page, loadingExclusive p → loadingExclusive (hideLoading p)) ∧
    (∀ (message : String) (p : Page), loadingExclusive p →
      loadingExclusive (showError message p)) ∧
    (∀ (data : TailorResult) (p : Page), loadingExclusive p →
      loadingExclusive (showResult data p)) ∧
    (∀ p : Page, loadingExclusive p → loadingExclusive (clearAll p)) ∧
    (∀ (s0 : Sys) (events : List Event), allHidden s0.page →
      loadingExclusive (run s0 events).page) :=
  ⟨loadingExclusive_showLoading,
   fun p _ => loadingExclusive_hideLoading p,
   fun message p _ => loadingExclusive_showError message p,
   fun data p _ => loadingExclusive_showResult data p,
   fun p _ => loadingExclusive_clearAll p,
   fun s0 events h0 => loadingExclusive_run events s0 (loadingExclusive_of_allHidden _ h0)⟩

/-- Witness for C10: a tailoring and a scraping in
flight at once, the scraping failing first and the tailoring succeeding
last. -/
theorem loadingExclusive_invariant_witness :
    allHidden initialSys.page ∧
    loadingExclusive (run initialSys
      [.input "Experienced engineer..." "Looking for backend dev" "https://jobs.example/42",
       .tailorResume
         (fun _ => .responded (.success 200 (.ok ⟨"Tailored", some ["Go", "SQL"], "Notes"⟩))),
       .scrapeJobDescription (fun _ => true) (fun _ => .responded (.failure 500 .unparseable)),
       .settle 1,
       .settle 0]).page :=
  ⟨by decide, loadingExclusive_invariant.2.2.2.2.2 initialSys _ (by decide)⟩

end ResumeTailor
